import Mathlib

/-!
Verification of the core data-access layer of a SQLite CRUD service
(`src/main.rs`): identifier validation, dynamic-SQL statement building,
and bidirectional value marshalling.  The Rust code is shallowly embedded:
`serde_json::Map` iteration is modelled as a list of key/value pairs in
iteration order, `serde_json::Number` is modelled by its observable
accessors (`as_i64` / `as_u64` / `as_f64`) plus its rendered decimal form,
the floating-point payload is an opaque 64-bit pattern, and the external
store primitive (`execute` / `fetch_all`) is a function parameter so that
theorems can quantify over every possible executor.
-/

/-! ## Identifier validator (`is_valid_ident`, regex `^[A-Za-z_][A-Za-z0-9_]*$`) -/

/-- The characters of the regex class `A-Z`. -/
def upperChars : List Char :=
  ['A', 'B', 'C', 'D', 'E', 'F', 'G', 'H', 'I', 'J', 'K', 'L', 'M',
   'N', 'O', 'P', 'Q', 'R', 'S', 'T', 'U', 'V', 'W', 'X', 'Y', 'Z']

/-- The characters of the regex class `a-z`. -/
def lowerChars : List Char :=
  ['a', 'b', 'c', 'd', 'e', 'f', 'g', 'h', 'i', 'j', 'k', 'l', 'm',
   'n', 'o', 'p', 'q', 'r', 's', 't', 'u', 'v', 'w', 'x', 'y', 'z']

/-- The characters of the regex class `0-9`. -/
def digitChars : List Char :=
  ['0', '1', '2', '3', '4', '5', '6', '7', '8', '9']

/-- The character class `[A-Za-z_]` of the first regex position. -/
def identStartChars : List Char := upperChars ++ lowerChars ++ ['_']

/-- The character class `[A-Za-z0-9_]` of the starred regex position. -/
def identClassChars : List Char := upperChars ++ lowerChars ++ digitChars ++ ['_']

/-- Embedding of `is_valid_ident` (src/main.rs line 29): the regex engine
applied to the anchored pattern `^[A-Za-z_][A-Za-z0-9_]*$` compiled in
`main` (line 109), i.e. a full match of one `[A-Za-z_]` character followed
by any number of `[A-Za-z0-9_]` characters. -/
def is_valid_ident (s : String) : Bool :=
  match s.data with
  | [] => false
  | c :: cs => identStartChars.contains c && cs.all identClassChars.contains

/-- A character class `[c₁c₂…]` as a formal regular expression: the sum of
the single-character expressions. -/
def classRe : List Char → RegularExpression Char
  | [] => 0
  | c :: cs => RegularExpression.char c + classRe cs

/-- The pattern `^[A-Za-z_][A-Za-z0-9_]*$` as a formal regular expression
(the anchors become full-match semantics). -/
def identRegex : RegularExpression Char :=
  classRe identStartChars * (classRe identClassChars).star

/-! ## Dynamic value model (`serde_json::Value`) -/

/-- An opaque 64-bit floating-point payload (the bit pattern of an `f64`);
the core never computes with floats, it only passes them through. -/
structure F64 where
  bits : Nat
deriving DecidableEq, Repr

/-- Model of the external `serde_json::Number` type by its observable
accessors: `as_i64`, `as_u64`, `as_f64`, and its `Display` rendering used
by `Value::to_string`. -/
structure JNumber where
  asI64 : Option Int
  asU64 : Option Nat
  asF64 : Option F64
  render : String

/-- Model of `serde_json::Value`: the open JSON value model arriving from
the wire. -/
inductive JValue where
  | null : JValue
  | bool (b : Bool) : JValue
  | num (n : JNumber) : JValue
  | str (s : String) : JValue
  | arr (xs : List JValue) : JValue
  | obj (kvs : List (String × JValue)) : JValue

/-- Lowercase hex digit, as used by serde_json `\u00XX` escapes. -/
def hexDigit (n : Nat) : String :=
  String.singleton ("0123456789abcdef".data.getD n '0')

/-- serde_json escaping of one character inside a JSON string literal:
quote and backslash are escaped, control characters use the short escapes
`\b \t \n \f \r` or `\u00XX`, everything else is emitted verbatim. -/
def escapeJsonChar (c : Char) : String :=
  if c = '"' then "\\\""
  else if c = '\\' then "\\\\"
  else if c.toNat < 32 then
    if c = Char.ofNat 8 then "\\b"
    else if c = Char.ofNat 9 then "\\t"
    else if c = Char.ofNat 10 then "\\n"
    else if c = Char.ofNat 12 then "\\f"
    else if c = Char.ofNat 13 then "\\r"
    else "\\u00" ++ hexDigit (c.toNat / 16) ++ hexDigit (c.toNat % 16)
  else String.singleton c

/-- serde_json escaping of a whole string body. -/
def escapeJsonString (s : String) : String :=
  String.join (s.data.map escapeJsonChar)

mutual

/-- Embedding of `serde_json::Value::to_string()` (compact serialization),
used by `bind_value` for the `Array | Object` fallback. -/
def jsonToString : JValue → String
  | .null => "null"
  | .bool b => if b then "true" else "false"
  | .num n => n.render
  | .str s => "\"" ++ escapeJsonString s ++ "\""
  | .arr xs => "[" ++ jsonArrBody xs ++ "]"
  | .obj kvs => "\x7b" ++ jsonObjBody kvs ++ "\x7d"

/-- Comma-joined serialization of array elements. -/
def jsonArrBody : List JValue → String
  | [] => ""
  | [x] => jsonToString x
  | x :: y :: rest => jsonToString x ++ "," ++ jsonArrBody (y :: rest)

/-- Comma-joined serialization of object members. -/
def jsonObjBody : List (String × JValue) → String
  | [] => ""
  | [(k, v)] => "\"" ++ escapeJsonString k ++ "\":" ++ jsonToString v
  | (k, v) :: p :: rest =>
      "\"" ++ escapeJsonString k ++ "\":" ++ jsonToString v ++ "," ++ jsonObjBody (p :: rest)

end

/-! ## Write-side marshaller (`bind_value`, src/main.rs lines 424-441) -/

/-- A native bound parameter as handed to the sqlx query. -/
inductive SqlParam where
  | null : SqlParam
  | boolean (b : Bool) : SqlParam
  | int (i : Int) : SqlParam
  | float (f : F64) : SqlParam
  | text (s : String) : SqlParam
deriving DecidableEq, Repr

/-- `i64::MAX`. -/
def i64Max : Int := 9223372036854775807

/-- Embedding of `i64::try_from(u : u64)`: succeeds exactly when the value
fits in the signed 64-bit range. -/
def i64TryFrom (u : Nat) : Option Int :=
  if u < 2 ^ 63 then some (u : Int) else none

/-- Embedding of `bind_value` (src/main.rs lines 424-441).  It returns
`Except String SqlParam` mirroring `Result<Query, anyhow::Error>`; every
branch of the source returns `Ok`, so every branch here returns `.ok`. -/
def bind_value (v : JValue) : Except String SqlParam :=
  match v with
  | .null => .ok .null
  | .bool b => .ok (.boolean b)
  | .num n =>
      match n.asI64 with
      | some i => .ok (.int i)
      | none =>
          match n.asU64 with
          | some u => .ok (.int ((i64TryFrom u).getD i64Max))
          | none =>
              match n.asF64 with
              | some f => .ok (.float f)
              | none => .ok .null
  | .str s => .ok (.text s)
  | .arr xs => .ok (.text (jsonToString (.arr xs)))
  | .obj kvs => .ok (.text (jsonToString (.obj kvs)))

/-! ## Error model and tool inputs -/

/-- Model of the `rmcp::model::ErrorData` constructors the handlers use:
`invalid_params` (caller-input error) and `internal_error`. -/
inductive ToolError where
  | invalidParams (msg : String) : ToolError
  | internalError (msg : String) : ToolError
deriving DecidableEq, Repr

/-- A built statement: SQL text plus the ordered bound parameters. -/
abbrev BoundStatement := String × List SqlParam

instance {ε α : Type} [DecidableEq ε] [DecidableEq α] : DecidableEq (Except ε α) := fun a b =>
  match a, b with
  | .error e, .error f =>
      if h : e = f then isTrue (by subst h; rfl) else isFalse (fun hc => h (by cases hc; rfl))
  | .error _, .ok _ => isFalse (fun hc => Except.noConfusion hc)
  | .ok _, .error _ => isFalse (fun hc => Except.noConfusion hc)
  | .ok x, .ok y =>
      if h : x = y then isTrue (by subst h; rfl) else isFalse (fun hc => h (by cases hc; rfl))

/-- `InsertInput` (src/main.rs line 32); the `serde_json::Map` is modelled
as its key/value pairs in iteration order. -/
structure InsertInput where
  table : String
  values : List (String × JValue)

/-- `SelectInput` (src/main.rs lines 34-42); `whereClause` models the
`r#where` field (serde-renamed `where`, a Lean keyword). -/
structure SelectInput where
  table : String
  columns : Option (List String)
  whereClause : Option String
  params : Option (List JValue)
  order_by : Option String
  limit : Option Int
  offset : Option Int

/-- `UpdateInput` (src/main.rs lines 44-49). -/
structure UpdateInput where
  table : String
  set : List (String × JValue)
  whereClause : Option String
  params : Option (List JValue)

/-- `DeleteInput` (src/main.rs line 51). -/
structure DeleteInput where
  table : String
  whereClause : Option String
  params : Option (List JValue)

/-! ## Statement builders -/

/-- The column-collecting loop of `sqlite_insert` (lines 135-141): validate
each column name in iteration order, aborting at the first invalid one,
collecting names and values. -/
def collectInsert : List (String × JValue) → Except ToolError (List String × List JValue)
  | [] => .ok ([], [])
  | (k, v) :: rest =>
      if is_valid_ident k then
        match collectInsert rest with
        | .error e => .error e
        | .ok (cols, binds) => .ok (k :: cols, v :: binds)
      else .error (.invalidParams ("Invalid column: " ++ k))

/-- The column-validation loop of `sqlite_select` (line 164). -/
def validateCols : List String → Except ToolError Unit
  | [] => .ok ()
  | c :: rest =>
      if is_valid_ident c then validateCols rest
      else .error (.invalidParams ("Invalid column: " ++ c))

/-- The `SET` fragment loop of `sqlite_update` (lines 211-215): validate
each set-column, collect `col = ?` fragments and the values. -/
def collectSet : List (String × JValue) → Except ToolError (List String × List JValue)
  | [] => .ok ([], [])
  | (k, v) :: rest =>
      if is_valid_ident k then
        match collectSet rest with
        | .error e => .error e
        | .ok (frags, vals) => .ok ((k ++ " = ?") :: frags, v :: vals)
      else .error (.invalidParams ("Invalid column: " ++ k))

/-- The bind loop shared by all four handlers: bind each value in order
with the given encoder, wrapping an encoder failure with `mapErr` (the
source maps it through `ErrorData::internal_error` in `sqlite_insert` and
through `ErrorData::invalid_params` in the other three handlers).  The
encoder is a parameter so that the error-reporting path can be examined
even though the shipped `bind_value` is total. -/
def bindLoop (bindv : JValue → Except String SqlParam) (mapErr : String → ToolError) :
    List JValue → Except ToolError (List SqlParam)
  | [] => .ok []
  | v :: vs =>
      match bindv v with
      | .error e => .error (mapErr e)
      | .ok p =>
          match bindLoop bindv mapErr vs with
          | .error e => .error e
          | .ok ps => .ok (p :: ps)

/-- The statement-building portion of `sqlite_insert` (lines 127-148),
up to and including binding (everything before the `execute` call). -/
def sqlite_insertW (bindv : JValue → Except String SqlParam) (input : InsertInput) :
    Except ToolError BoundStatement :=
  if is_valid_ident input.table then
    match collectInsert input.values with
    | .error e => .error e
    | .ok (cols, binds) =>
        if cols.isEmpty then .error (.invalidParams "No columns provided")
        else
          let placeholders := String.intercalate ", " (List.replicate cols.length "?")
          let sql := "INSERT INTO " ++ input.table ++ " (" ++ String.intercalate ", " cols
            ++ ") VALUES (" ++ placeholders ++ ")"
          match bindLoop bindv ToolError.internalError binds with
          | .error e => .error e
          | .ok ps => .ok (sql, ps)
  else .error (.invalidParams "Invalid table name")

/-- The column-list computation of `sqlite_select` (lines 162-167). -/
def selectColsText : Option (List String) → Except ToolError String
  | some list =>
      if list.isEmpty then .ok "*"
      else
        match validateCols list with
        | .error e => .error e
        | .ok _ => .ok (String.intercalate ", " list)
  | none => .ok "*"

/-- The statement-building portion of `sqlite_select` (lines 156-174),
up to and including binding (everything before the `fetch_all` call). -/
def sqlite_selectW (bindv : JValue → Except String SqlParam) (input : SelectInput) :
    Except ToolError BoundStatement :=
  if is_valid_ident input.table then
    match selectColsText input.columns with
    | .error e => .error e
    | .ok cols =>
        let sql0 := "SELECT " ++ cols ++ " FROM " ++ input.table
        let sql1 := match input.whereClause with
          | some w => sql0 ++ " WHERE " ++ w
          | none => sql0
        let sql2 := match input.order_by with
          | some ob => sql1 ++ " ORDER BY " ++ ob
          | none => sql1
        let sql3 := match input.limit with
          | some l => sql2 ++ " LIMIT " ++ toString l
          | none => sql2
        let sql4 := match input.offset with
          | some o => sql3 ++ " OFFSET " ++ toString o
          | none => sql3
        match input.params with
        | some pl =>
            match bindLoop bindv ToolError.invalidParams pl with
            | .error e => .error e
            | .ok ps => .ok (sql4, ps)
        | none => .ok (sql4, [])
  else .error (.invalidParams "Invalid table name")

/-- The statement-building portion of `sqlite_update` (lines 204-220),
up to and including binding (everything before the `execute` call). -/
def sqlite_updateW (bindv : JValue → Except String SqlParam) (input : UpdateInput) :
    Except ToolError BoundStatement :=
  if is_valid_ident input.table then
    if input.set.isEmpty then .error (.invalidParams "No columns provided in set")
    else
      match collectSet input.set with
      | .error e => .error e
      | .ok (frags, vals) =>
          let sql0 := "UPDATE " ++ input.table ++ " SET " ++ String.intercalate ", " frags
          let sql1 := match input.whereClause with
            | some w => sql0 ++ " WHERE " ++ w
            | none => sql0
          match bindLoop bindv ToolError.invalidParams vals with
          | .error e => .error e
          | .ok setPs =>
              match input.params with
              | some pl =>
                  match bindLoop bindv ToolError.invalidParams pl with
                  | .error e => .error e
                  | .ok fps => .ok (sql1, setPs ++ fps)
              | none => .ok (sql1, setPs)
  else .error (.invalidParams "Invalid table name")

/-- The statement-building portion of `sqlite_delete` (lines 228-235),
up to and including binding (everything before the `execute` call). -/
def sqlite_deleteW (bindv : JValue → Except String SqlParam) (input : DeleteInput) :
    Except ToolError BoundStatement :=
  if is_valid_ident input.table then
    let sql0 := "DELETE FROM " ++ input.table
    let sql1 := match input.whereClause with
      | some w => sql0 ++ " WHERE " ++ w
      | none => sql0
    match input.params with
    | some pl =>
        match bindLoop bindv ToolError.invalidParams pl with
        | .error e => .error e
        | .ok ps => .ok (sql1, ps)
    | none => .ok (sql1, [])
  else .error (.invalidParams "Invalid table name")

/-! ## Full handlers, parameterized by the external store primitive -/

/-- Result of the store `execute` primitive. -/
structure ExecOutcome where
  lastInsertRowid : Int
  rowsAffected : Nat
deriving DecidableEq, Repr

/-- Full `sqlite_insert` handler: build, then hand the statement to the
external `execute` primitive; a store failure becomes an internal error. -/
def sqlite_insert (bindv : JValue → Except String SqlParam)
    (exec : String → List SqlParam → Except String ExecOutcome)
    (input : InsertInput) : Except ToolError Int :=
  match sqlite_insertW bindv input with
  | .error e => .error e
  | .ok (sql, ps) =>
      match exec sql ps with
      | .error m => .error (.internalError m)
      | .ok r => .ok r.lastInsertRowid

/-- Full `sqlite_update` handler. -/
def sqlite_update (bindv : JValue → Except String SqlParam)
    (exec : String → List SqlParam → Except String ExecOutcome)
    (input : UpdateInput) : Except ToolError Nat :=
  match sqlite_updateW bindv input with
  | .error e => .error e
  | .ok (sql, ps) =>
      match exec sql ps with
      | .error m => .error (.internalError m)
      | .ok r => .ok r.rowsAffected

/-- Full `sqlite_delete` handler. -/
def sqlite_delete (bindv : JValue → Except String SqlParam)
    (exec : String → List SqlParam → Except String ExecOutcome)
    (input : DeleteInput) : Except ToolError Nat :=
  match sqlite_deleteW bindv input with
  | .error e => .error e
  | .ok (sql, ps) =>
      match exec sql ps with
      | .error m => .error (.internalError m)
      | .ok r => .ok r.rowsAffected

/-! ## Read-side marshaller (`sqlite_select` rows loop, lines 177-197) -/

/-- One native result column as observed through the sqlx row API:
`raw` models `try_get_raw` (`none` = `Err(_)`, `some b` = `Ok(r)` with
`r.is_null() = b`), and the four `get*` fields model the outcomes of the
typed reads `try_get::<i64>`, `try_get::<f64>`, `try_get::<String>` and
`try_get::<Vec<u8>>` on this column. -/
structure NativeColumn where
  name : String
  raw : Option Bool
  getI64 : Option Int
  getF64 : Option F64
  getText : Option String
  getBlob : Option (List (Fin 256))

/-- The dynamic value a result cell marshals to (the `serde_json::Value`
the handler builds: `Value::Null`, `Value::from(i64/f64/String)`). -/
inductive DynVal where
  | nullV : DynVal
  | intV (i : Int) : DynVal
  | floatV (f : F64) : DynVal
  | textV (s : String) : DynVal
deriving DecidableEq, Repr

/-- The base64 alphabet character at index `n` (standard alphabet). -/
def b64Char (n : Nat) : Char :=
  "ABCDEFGHIJKLMNOPQRSTUVWXYZabcdefghijklmnopqrstuvwxyz0123456789+/".data.getD n 'A'

/-- Embedding of `base64::engine::general_purpose::STANDARD.encode`:
RFC 4648 base64 with padding over a byte sequence. -/
def b64encode : List (Fin 256) → String
  | [] => ""
  | [a] =>
      String.mk [b64Char (a.val / 4), b64Char (a.val % 4 * 16)] ++ "=="
  | [a, b] =>
      String.mk [b64Char (a.val / 4), b64Char (a.val % 4 * 16 + b.val / 16),
                 b64Char (b.val % 16 * 4)] ++ "="
  | a :: b :: c :: rest =>
      String.mk [b64Char (a.val / 4), b64Char (a.val % 4 * 16 + b.val / 16),
                 b64Char (b.val % 16 * 4 + c.val / 64), b64Char (c.val % 64)]
        ++ b64encode rest

/-- Embedding of the per-column marshalling of `sqlite_select`
(lines 181-193): a null or unreadable raw value short-circuits to `Null`;
otherwise typed reads are probed in the order i64, f64, String, Vec<u8>
(the blob re-encoded as base64 text), falling back to `Null`. -/
def marshalColumn (c : NativeColumn) : DynVal :=
  match c.raw with
  | none => .nullV
  | some isNull =>
      if isNull then .nullV
      else
        match c.getI64 with
        | some i => .intV i
        | none =>
            match c.getF64 with
            | some f => .floatV f
            | none =>
                match c.getText with
                | some s => .textV s
                | none =>
                    match c.getBlob with
                    | some bs => .textV (b64encode bs)
                    | none => .nullV

/-- Marshal one native row into the outward name/value mapping
(lines 178-195). -/
def marshalRow (row : List NativeColumn) : List (String × DynVal) :=
  row.map fun c => (c.name, marshalColumn c)

/-- Full `sqlite_select` handler: build, hand the statement to the external
`fetch_all` primitive, then marshal every returned row. -/
def sqlite_select (bindv : JValue → Except String SqlParam)
    (query : String → List SqlParam → Except String (List (List NativeColumn)))
    (input : SelectInput) : Except ToolError (List (List (String × DynVal))) :=
  match sqlite_selectW bindv input with
  | .error e => .error e
  | .ok (sql, ps) =>
      match query sql ps with
      | .error m => .error (.internalError m)
      | .ok rows => .ok (rows.map marshalRow)

/-! ## Helper lemmas: character-class regular expressions -/

lemma mem_classRe (cs : List Char) (x : List Char) :
    x ∈ (classRe cs).matches' ↔ ∃ c, c ∈ cs ∧ x = [c] := by
  induction cs with
  | nil => simp [classRe]
  | cons c cs ih =>
      simp only [classRe, RegularExpression.matches'_add, Language.mem_add, ih,
        RegularExpression.matches'_char, Set.mem_singleton_iff, List.mem_cons]
      constructor
      · rintro (rfl | ⟨d, hd, rfl⟩)
        · exact ⟨c, Or.inl rfl, rfl⟩
        · exact ⟨d, Or.inr hd, rfl⟩
      · rintro ⟨d, (rfl | hd), rfl⟩
        · exact Or.inl rfl
        · exact Or.inr ⟨d, hd, rfl⟩

lemma mem_classRe_star (cs : List Char) (x : List Char) :
    x ∈ (classRe cs).star.matches' ↔ ∀ c ∈ x, c ∈ cs := by
  rw [RegularExpression.matches'_star]
  constructor
  · intro h
    rw [Language.mem_kstar] at h
    obtain ⟨S, rfl, hS⟩ := h
    intro c hc
    rw [List.mem_flatten] at hc
    obtain ⟨y, hy, hcy⟩ := hc
    obtain ⟨d, hd, rfl⟩ := (mem_classRe cs y).1 (hS y hy)
    obtain rfl : c = d := by simpa using hcy
    exact hd
  · intro h
    induction x with
    | nil => exact Language.nil_mem_kstar _
    | cons c x ih =>
        have hx := ih (fun d hd => h d (List.mem_cons_of_mem _ hd))
        rw [Language.mem_kstar] at hx ⊢
        obtain ⟨S, rfl, hS⟩ := hx
        refine ⟨[c] :: S, rfl, ?_⟩
        intro y hy
        rcases List.mem_cons.1 hy with rfl | hy
        · exact (mem_classRe cs _).2 ⟨c, h c (List.mem_cons_self c _), rfl⟩
        · exact hS y hy

/-- C1: for every string `s`, `is_valid_ident` returns `true` iff `s` is in
the language of the regular expression `^[A-Za-z_][A-Za-z0-9_]*$` (i.e. `s`
is non-empty, its first character is a letter or underscore, and every
remaining character is a letter, digit, or underscore). -/
theorem is_valid_ident_iff_regex (s : String) :
    is_valid_ident s = true ↔ s.data ∈ identRegex.matches' := by
  obtain ⟨data⟩ := s
  unfold identRegex
  rw [RegularExpression.matches'_mul, Language.mem_mul]
  cases data with
  | nil =>
      simp only [is_valid_ident, Bool.false_eq_true, false_iff]
      rintro ⟨a, ha, b, hb, hab⟩
      obtain ⟨c, hc, rfl⟩ := (mem_classRe _ a).1 ha
      simp at hab
  | cons c cs =>
      constructor
      · intro h
        simp only [is_valid_ident, Bool.and_eq_true, List.all_eq_true] at h
        obtain ⟨h1, h2⟩ := h
        refine ⟨[c], (mem_classRe _ _).2 ⟨c, List.elem_iff.1 h1, rfl⟩, cs, ?_, rfl⟩
        exact (mem_classRe_star _ _).2 fun d hd => List.elem_iff.1 (h2 d hd)
      · rintro ⟨a, ha, b, hb, hab⟩
        obtain ⟨d, hd, rfl⟩ := (mem_classRe _ a).1 ha
        obtain ⟨rfl, rfl⟩ : d = c ∧ b = cs := by simpa using hab
        have hall := (mem_classRe_star _ _).1 hb
        simp only [is_valid_ident, Bool.and_eq_true, List.all_eq_true]
        exact ⟨List.elem_iff.2 hd, fun d hd => List.elem_iff.2 (hall d hd)⟩

example : is_valid_ident "1abc" = false := by decide
example : is_valid_ident "_abc9" = true := by decide
example : is_valid_ident "" = false := by decide

/-! ## Helper lemmas: the validation loops -/

lemma collectInsert_ok (kvs : List (String × JValue))
    (h : ∀ kv ∈ kvs, is_valid_ident kv.1 = true) :
    collectInsert kvs = .ok (kvs.map Prod.fst, kvs.map Prod.snd) := by
  induction kvs with
  | nil => rfl
  | cons kv rest ih =>
      obtain ⟨k, v⟩ := kv
      have hk : is_valid_ident k = true := h (k, v) (List.mem_cons_self _ _)
      simp [collectInsert, hk, ih fun kv hkv => h kv (List.mem_cons_of_mem _ hkv)]

lemma collectInsert_err (kvs : List (String × JValue)) (kv0 : String × JValue)
    (h : kvs.find? (fun kv => ! is_valid_ident kv.1) = some kv0) :
    collectInsert kvs = .error (.invalidParams ("Invalid column: " ++ kv0.1)) := by
  induction kvs with
  | nil => simp [List.find?] at h
  | cons kv rest ih =>
      obtain ⟨k, v⟩ := kv
      by_cases hk : is_valid_ident k = true
      · rw [List.find?_cons_of_neg _ (by simp [hk])] at h
        simp [collectInsert, hk, ih h]
      · rw [List.find?_cons_of_pos _ (by simp [Bool.not_eq_true] at hk ⊢; exact hk)] at h
        obtain rfl := Option.some_injective _ h
        simp [collectInsert, hk]

lemma collectSet_ok (kvs : List (String × JValue))
    (h : ∀ kv ∈ kvs, is_valid_ident kv.1 = true) :
    collectSet kvs = .ok (kvs.map (fun kv => kv.1 ++ " = ?"), kvs.map Prod.snd) := by
  induction kvs with
  | nil => rfl
  | cons kv rest ih =>
      obtain ⟨k, v⟩ := kv
      have hk : is_valid_ident k = true := h (k, v) (List.mem_cons_self _ _)
      simp [collectSet, hk, ih fun kv hkv => h kv (List.mem_cons_of_mem _ hkv)]

lemma collectSet_err (kvs : List (String × JValue)) (kv0 : String × JValue)
    (h : kvs.find? (fun kv => ! is_valid_ident kv.1) = some kv0) :
    collectSet kvs = .error (.invalidParams ("Invalid column: " ++ kv0.1)) := by
  induction kvs with
  | nil => simp [List.find?] at h
  | cons kv rest ih =>
      obtain ⟨k, v⟩ := kv
      by_cases hk : is_valid_ident k = true
      · rw [List.find?_cons_of_neg _ (by simp [hk])] at h
        simp [collectSet, hk, ih h]
      · rw [List.find?_cons_of_pos _ (by simp [Bool.not_eq_true] at hk ⊢; exact hk)] at h
        obtain rfl := Option.some_injective _ h
        simp [collectSet, hk]

lemma validateCols_ok (cols : List String) (h : ∀ c ∈ cols, is_valid_ident c = true) :
    validateCols cols = .ok () := by
  induction cols with
  | nil => rfl
  | cons c rest ih =>
      have hc : is_valid_ident c = true := h c (List.mem_cons_self _ _)
      simp [validateCols, hc, ih fun c hc => h c (List.mem_cons_of_mem _ hc)]

lemma validateCols_err (cols : List String) (c0 : String)
    (h : cols.find? (fun c => ! is_valid_ident c) = some c0) :
    validateCols cols = .error (.invalidParams ("Invalid column: " ++ c0)) := by
  induction cols with
  | nil => simp [List.find?] at h
  | cons c rest ih =>
      by_cases hc : is_valid_ident c = true
      · rw [List.find?_cons_of_neg _ (by simp [hc])] at h
        simp [validateCols, hc, ih h]
      · rw [List.find?_cons_of_pos _ (by simp [Bool.not_eq_true] at hc ⊢; exact hc)] at h
        obtain rfl := Option.some_injective _ h
        simp [validateCols, hc]

lemma bind_value_isOk (v : JValue) : ∃ p, bind_value v = .ok p := by
  cases v with
  | null => exact ⟨_, rfl⟩
  | bool b => exact ⟨_, rfl⟩
  | str s => exact ⟨_, rfl⟩
  | arr xs => exact ⟨_, rfl⟩
  | obj kvs => exact ⟨_, rfl⟩
  | num n =>
      obtain ⟨i1, u1, f1, r1⟩ := n
      cases i1 with
      | some i => exact ⟨_, rfl⟩
      | none =>
          cases u1 with
          | some u => exact ⟨_, rfl⟩
          | none =>
              cases f1 with
              | some f => exact ⟨_, rfl⟩
              | none => exact ⟨_, rfl⟩

lemma bindLoop_bind_value_total (mapErr : String → ToolError) (vs : List JValue) :
    ∃ ps, bindLoop bind_value mapErr vs = .ok ps := by
  induction vs with
  | nil => exact ⟨[], rfl⟩
  | cons v vs ih =>
      obtain ⟨p, hp⟩ := bind_value_isOk v
      obtain ⟨ps, hps⟩ := ih
      exact ⟨p :: ps, by simp [bindLoop, hp, hps]⟩

/-! ## Helper lemmas: builder error propagation -/

lemma sqlite_insertW_bad_table (bindv : JValue → Except String SqlParam)
    (input : InsertInput) (h : is_valid_ident input.table = false) :
    sqlite_insertW bindv input = .error (.invalidParams "Invalid table name") := by
  simp [sqlite_insertW, h]

lemma sqlite_insertW_bad_col (bindv : JValue → Except String SqlParam)
    (input : InsertInput) (kv0 : String × JValue)
    (ht : is_valid_ident input.table = true)
    (h : input.values.find? (fun kv => ! is_valid_ident kv.1) = some kv0) :
    sqlite_insertW bindv input = .error (.invalidParams ("Invalid column: " ++ kv0.1)) := by
  simp [sqlite_insertW, ht, collectInsert_err _ _ h]

lemma sqlite_selectW_bad_table (bindv : JValue → Except String SqlParam)
    (input : SelectInput) (h : is_valid_ident input.table = false) :
    sqlite_selectW bindv input = .error (.invalidParams "Invalid table name") := by
  simp [sqlite_selectW, h]

lemma sqlite_selectW_bad_col (bindv : JValue → Except String SqlParam)
    (input : SelectInput) (list : List String) (c0 : String)
    (ht : is_valid_ident input.table = true)
    (hc : input.columns = some list)
    (h : list.find? (fun c => ! is_valid_ident c) = some c0) :
    sqlite_selectW bindv input = .error (.invalidParams ("Invalid column: " ++ c0)) := by
  have hne : list.isEmpty = false := by
    cases list with
    | nil => simp [List.find?] at h
    | cons a l => rfl
  simp [sqlite_selectW, ht, selectColsText, hc, hne, validateCols_err _ _ h]

lemma sqlite_updateW_bad_table (bindv : JValue → Except String SqlParam)
    (input : UpdateInput) (h : is_valid_ident input.table = false) :
    sqlite_updateW bindv input = .error (.invalidParams "Invalid table name") := by
  simp [sqlite_updateW, h]

lemma sqlite_updateW_bad_col (bindv : JValue → Except String SqlParam)
    (input : UpdateInput) (kv0 : String × JValue)
    (ht : is_valid_ident input.table = true)
    (h : input.set.find? (fun kv => ! is_valid_ident kv.1) = some kv0) :
    sqlite_updateW bindv input = .error (.invalidParams ("Invalid column: " ++ kv0.1)) := by
  have hne : input.set.isEmpty = false := by
    cases hs : input.set with
    | nil => rw [hs] at h; simp [List.find?] at h
    | cons a l => rfl
  simp [sqlite_updateW, ht, hne, collectSet_err _ _ h]

lemma sqlite_deleteW_bad_table (bindv : JValue → Except String SqlParam)
    (input : DeleteInput) (h : is_valid_ident input.table = false) :
    sqlite_deleteW bindv input = .error (.invalidParams "Invalid table name") := by
  simp [sqlite_deleteW, h]

lemma sqlite_insert_of_builder_error (bindv : JValue → Except String SqlParam)
    (exec : String → List SqlParam → Except String ExecOutcome)
    (input : InsertInput) (e : ToolError) (h : sqlite_insertW bindv input = .error e) :
    sqlite_insert bindv exec input = .error e := by
  simp [sqlite_insert, h]

lemma sqlite_select_of_builder_error (bindv : JValue → Except String SqlParam)
    (query : String → List SqlParam → Except String (List (List NativeColumn)))
    (input : SelectInput) (e : ToolError) (h : sqlite_selectW bindv input = .error e) :
    sqlite_select bindv query input = .error e := by
  simp [sqlite_select, h]

lemma sqlite_update_of_builder_error (bindv : JValue → Except String SqlParam)
    (exec : String → List SqlParam → Except String ExecOutcome)
    (input : UpdateInput) (e : ToolError) (h : sqlite_updateW bindv input = .error e) :
    sqlite_update bindv exec input = .error e := by
  simp [sqlite_update, h]

lemma sqlite_delete_of_builder_error (bindv : JValue → Except String SqlParam)
    (exec : String → List SqlParam → Except String ExecOutcome)
    (input : DeleteInput) (e : ToolError) (h : sqlite_deleteW bindv input = .error e) :
    sqlite_delete bindv exec input = .error e := by
  simp [sqlite_delete, h]

/-- C2: in each of the four CRUD handlers, an invalid table name, or an
invalid supplied column name (the first one in iteration order, located by
`find?`), makes the handler return the corresponding invalid-identifier
`invalid_params` error, and the result is this same error for EVERY
executor — the store execution primitive is never invoked. -/
theorem crud_invalid_identifier_fail_fast :
    (∀ (input : InsertInput), is_valid_ident input.table = false →
        ∀ exec, sqlite_insert bind_value exec input =
          .error (.invalidParams "Invalid table name"))
  ∧ (∀ (input : InsertInput) (kv0 : String × JValue), is_valid_ident input.table = true →
        input.values.find? (fun kv => ! is_valid_ident kv.1) = some kv0 →
        ∀ exec, sqlite_insert bind_value exec input =
          .error (.invalidParams ("Invalid column: " ++ kv0.1)))
  ∧ (∀ (input : SelectInput), is_valid_ident input.table = false →
        ∀ query, sqlite_select bind_value query input =
          .error (.invalidParams "Invalid table name"))
  ∧ (∀ (input : SelectInput) (list : List String) (c0 : String),
        is_valid_ident input.table = true →
        input.columns = some list →
        list.find? (fun c => ! is_valid_ident c) = some c0 →
        ∀ query, sqlite_select bind_value query input =
          .error (.invalidParams ("Invalid column: " ++ c0)))
  ∧ (∀ (input : UpdateInput), is_valid_ident input.table = false →
        ∀ exec, sqlite_update bind_value exec input =
          .error (.invalidParams "Invalid table name"))
  ∧ (∀ (input : UpdateInput) (kv0 : String × JValue), is_valid_ident input.table = true →
        input.set.find? (fun kv => ! is_valid_ident kv.1) = some kv0 →
        ∀ exec, sqlite_update bind_value exec input =
          .error (.invalidParams ("Invalid column: " ++ kv0.1)))
  ∧ (∀ (input : DeleteInput), is_valid_ident input.table = false →
        ∀ exec, sqlite_delete bind_value exec input =
          .error (.invalidParams "Invalid table name")) := by
  refine ⟨?_, ?_, ?_, ?_, ?_, ?_, ?_⟩
  · intro input h exec
    exact sqlite_insert_of_builder_error _ _ _ _ (sqlite_insertW_bad_table _ _ h)
  · intro input kv0 ht h exec
    exact sqlite_insert_of_builder_error _ _ _ _ (sqlite_insertW_bad_col _ _ _ ht h)
  · intro input h query
    exact sqlite_select_of_builder_error _ _ _ _ (sqlite_selectW_bad_table _ _ h)
  · intro input list c0 ht hc h query
    exact sqlite_select_of_builder_error _ _ _ _ (sqlite_selectW_bad_col _ _ _ _ ht hc h)
  · intro input h exec
    exact sqlite_update_of_builder_error _ _ _ _ (sqlite_updateW_bad_table _ _ h)
  · intro input kv0 ht h exec
    exact sqlite_update_of_builder_error _ _ _ _ (sqlite_updateW_bad_col _ _ _ ht h)
  · intro input h exec
    exact sqlite_delete_of_builder_error _ _ _ _ (sqlite_deleteW_bad_table _ _ h)

/-- Witness for C2: the spec's own test case — an insert on a valid table
with column name `1abc` fails with the invalid-identifier error under an
executor that would happily succeed. -/
theorem crud_invalid_identifier_fail_fast_witness :
    sqlite_insert bind_value (fun _ _ => .ok ⟨1, 1⟩) ⟨"t", [("1abc", JValue.null)]⟩ =
      .error (.invalidParams "Invalid column: 1abc") := by
  exact crud_invalid_identifier_fail_fast.2.1 ⟨"t", [("1abc", JValue.null)]⟩
    ("1abc", JValue.null) (by decide) rfl _

/-- C3: an Insert with a valid table and a non-empty list of valid
column/value pairs — in ANY iteration order — emits exactly
`INSERT INTO <table> (<col1>, …) VALUES (?, …)` with one `?` per column,
and binds the mapping's values in the same order as the column list. -/
theorem insert_statement_and_bind_order :
    ∀ (table : String) (kvs : List (String × JValue)) (ps : List SqlParam),
      is_valid_ident table = true →
      kvs ≠ [] →
      (∀ kv ∈ kvs, is_valid_ident kv.1 = true) →
      bindLoop bind_value ToolError.internalError (kvs.map Prod.snd) = .ok ps →
      sqlite_insertW bind_value ⟨table, kvs⟩ =
        .ok ("INSERT INTO " ++ table ++ " (" ++ String.intercalate ", " (kvs.map Prod.fst)
          ++ ") VALUES (" ++ String.intercalate ", " (List.replicate kvs.length "?") ++ ")",
          ps) := by
  intro table kvs ps ht hne hcols hbind
  have hempty : (kvs.map Prod.fst).isEmpty = false := by
    cases kvs with
    | nil => exact absurd rfl hne
    | cons kv rest => rfl
  simp [sqlite_insertW, ht, collectInsert_ok kvs hcols, hempty, hbind, List.length_map]

/-- Witness for C3: the spec's own example, columns `a` then `b` on table
`t` bind `[Integer 1, Text "x"]` in column-list order. -/
theorem insert_statement_and_bind_order_witness :
    sqlite_insertW bind_value
      ⟨"t", [("a", JValue.num ⟨some 1, some 1, none, "1"⟩), ("b", JValue.str "x")]⟩ =
      .ok ("INSERT INTO t (a, b) VALUES (?, ?)", [SqlParam.int 1, SqlParam.text "x"]) := by
  rw [insert_statement_and_bind_order "t"
    [("a", JValue.num ⟨some 1, some 1, none, "1"⟩), ("b", JValue.str "x")]
    [SqlParam.int 1, SqlParam.text "x"] (by decide) (List.cons_ne_nil _ _)
    (by decide) (by decide)]
  decide

/-- C4: a column whose raw probe reports null marshals to the Null dynamic
value whatever the typed-read accessors would return — no typed read can
influence (or corrupt) the result. -/
theorem null_column_marshals_null :
    ∀ (nm : String) (g1 : Option Int) (g2 : Option F64) (g3 : Option String)
      (g4 : Option (List (Fin 256))),
      marshalColumn ⟨nm, some true, g1, g2, g3, g4⟩ = DynVal.nullV := by
  intro nm g1 g2 g3 g4
  rfl

/-- C5: a non-null column is probed in the fixed order i64, f64, String,
Vec<u8>, taking the first success; a successful blob read is returned as
its base64 text; a column where all four probes fail marshals to Null; and
a Select whose executor returns such rows still succeeds, returning every
row marshalled. -/
theorem nonnull_probe_order_and_fallback :
    (∀ nm i g2 g3 g4, marshalColumn ⟨nm, some false, some i, g2, g3, g4⟩ = DynVal.intV i)
  ∧ (∀ nm f g3 g4, marshalColumn ⟨nm, some false, none, some f, g3, g4⟩ = DynVal.floatV f)
  ∧ (∀ nm s g4, marshalColumn ⟨nm, some false, none, none, some s, g4⟩ = DynVal.textV s)
  ∧ (∀ nm bs, marshalColumn ⟨nm, some false, none, none, none, some bs⟩ =
        DynVal.textV (b64encode bs))
  ∧ (∀ nm, marshalColumn ⟨nm, some false, none, none, none, none⟩ = DynVal.nullV)
  ∧ (∀ (table : String) (rows : List (List NativeColumn)),
        is_valid_ident table = true →
        sqlite_select bind_value (fun _ _ => .ok rows)
          ⟨table, none, none, none, none, none, none⟩ = .ok (rows.map marshalRow)) := by
  refine ⟨fun _ _ _ _ _ => rfl, fun _ _ _ _ => rfl, fun _ _ _ => rfl,
    fun _ _ => rfl, fun _ => rfl, ?_⟩
  intro table rows ht
  simp [sqlite_select, sqlite_selectW, selectColsText, ht]

/-- Witness for C5: a Select whose one result cell matches no probe still
succeeds, with that cell marshalled to Null. -/
theorem nonnull_probe_order_and_fallback_witness :
    sqlite_select bind_value (fun _ _ => .ok [[⟨"c", some false, none, none, none, none⟩]])
      ⟨"t", none, none, none, none, none, none⟩ = .ok [[("c", DynVal.nullV)]] := by
  rw [nonnull_probe_order_and_fallback.2.2.2.2.2 "t"
    [[⟨"c", some false, none, none, none, none⟩]] (by decide)]
  rfl

/-- C6: a numeric value on which `as_i64` fails but `as_u64` succeeds with
a value above the signed 64-bit range is bound as `i64::MAX` — clamped,
not rejected: the encoder still returns `Ok`. -/
theorem u64_overflow_clamped :
    ∀ (n : JNumber) (u : Nat),
      n.asI64 = none → n.asU64 = some u → 2 ^ 63 ≤ u → u < 2 ^ 64 →
      bind_value (JValue.num n) = .ok (SqlParam.int i64Max) := by
  intro n u h1 h2 h3 _
  obtain ⟨i1, u1, f1, r1⟩ := n
  simp only [JNumber.asI64] at h1
  simp only [JNumber.asU64] at h2
  subst h1
  subst h2
  show Except.ok (SqlParam.int ((i64TryFrom u).getD i64Max)) = .ok (SqlParam.int i64Max)
  rw [i64TryFrom, if_neg (Nat.not_lt.2 h3)]
  rfl

/-- Witness for C6: `2^63` (one past `i64::MAX`) binds as `i64::MAX`. -/
theorem u64_overflow_clamped_witness :
    bind_value (JValue.num ⟨none, some (2 ^ 63), none, "9223372036854775808"⟩) =
      .ok (SqlParam.int i64Max) :=
  u64_overflow_clamped _ (2 ^ 63) rfl rfl (by decide) (by decide)

/-- C7: an Update with a valid table and a non-empty valid set mapping
emits `UPDATE <table> SET col1 = ?, …` (plus ` WHERE …` when a filter is
given), and its bind list is the set values in SET-fragment order followed
by the filter parameters — matching the textual order SET before WHERE. -/
theorem update_set_then_filter_bind_order :
    ∀ (table : String) (kvs : List (String × JValue)) (wcl : Option String)
      (pl : Option (List JValue)) (setPs fps : List SqlParam),
      is_valid_ident table = true →
      kvs ≠ [] →
      (∀ kv ∈ kvs, is_valid_ident kv.1 = true) →
      bindLoop bind_value ToolError.invalidParams (kvs.map Prod.snd) = .ok setPs →
      bindLoop bind_value ToolError.invalidParams (pl.getD []) = .ok fps →
      sqlite_updateW bind_value ⟨table, kvs, wcl, pl⟩ =
        .ok ("UPDATE " ++ table ++ " SET "
            ++ String.intercalate ", " (kvs.map (fun kv => kv.1 ++ " = ?"))
            ++ (match wcl with | some w => " WHERE " ++ w | none => ""),
          setPs ++ fps) := by
  intro table kvs wcl pl setPs fps ht hne hcols hset hfil
  have hempty : kvs.isEmpty = false := by
    cases kvs with
    | nil => exact absurd rfl hne
    | cons kv rest => rfl
  cases pl with
  | none =>
      obtain rfl : fps = [] := by
        have : Except.ok ([] : List SqlParam) = .ok fps := hfil
        cases this
        rfl
      cases wcl with
      | none => simp [sqlite_updateW, ht, hempty, collectSet_ok kvs hcols, hset]
      | some w => simp [sqlite_updateW, ht, hempty, collectSet_ok kvs hcols, hset,
          String.append_assoc]
  | some l =>
      cases wcl with
      | none =>
          simp only [Option.getD] at hfil
          simp [sqlite_updateW, ht, hempty, collectSet_ok kvs hcols, hset, hfil]
      | some w =>
          simp only [Option.getD] at hfil
          simp [sqlite_updateW, ht, hempty, collectSet_ok kvs hcols, hset, hfil,
            String.append_assoc]

/-- Witness for C7: one set column and one filter parameter bind in the
order set value first, filter value second. -/
theorem update_set_then_filter_bind_order_witness :
    sqlite_updateW bind_value
      ⟨"t", [("a", JValue.null)], some "id = ?", some [JValue.str "y"]⟩ =
      .ok ("UPDATE t SET a = ? WHERE id = ?", [SqlParam.null, SqlParam.text "y"]) := by
  rw [update_set_then_filter_bind_order "t" [("a", JValue.null)] (some "id = ?")
    (some [JValue.str "y"]) [SqlParam.null] [SqlParam.text "y"]
    (by decide) (List.cons_ne_nil _ _) (by decide) rfl rfl]
  decide

/-- Counterexample for C8 as stated: an Insert whose mapping is empty but
whose table name is also invalid fails with the InvalidIdentifier error,
not with the EmptyColumnSet error — table validation runs first. -/
theorem empty_insert_invalid_table_counterexample :
    sqlite_insertW bind_value ⟨"1x", []⟩ = .error (.invalidParams "Invalid table name")
  ∧ sqlite_insertW bind_value ⟨"1x", []⟩ ≠ .error (.invalidParams "No columns provided") := by
  decide

/-- C8 (amended): provided the table name passes identifier validation,
an Insert with an empty mapping fails with `No columns provided` and an
Update with an empty set mapping fails with `No columns provided in set`
(both caller-input `invalid_params` errors), identically for every
executor — the store execution primitive is never invoked. -/
theorem empty_column_set_rejected :
    (∀ (input : InsertInput), is_valid_ident input.table = true → input.values = [] →
        ∀ exec, sqlite_insert bind_value exec input =
          .error (.invalidParams "No columns provided"))
  ∧ (∀ (input : UpdateInput), is_valid_ident input.table = true → input.set = [] →
        ∀ exec, sqlite_update bind_value exec input =
          .error (.invalidParams "No columns provided in set")) := by
  constructor
  · intro input ht hv exec
    apply sqlite_insert_of_builder_error
    simp [sqlite_insertW, ht, hv, collectInsert]
  · intro input ht hs exec
    apply sqlite_update_of_builder_error
    simp [sqlite_updateW, ht, hs]

/-- Witness for C8 (amended): an empty insert on a valid table fails with
the EmptyColumnSet error under an executor that would succeed. -/
theorem empty_column_set_rejected_witness :
    sqlite_insert bind_value (fun _ _ => .ok ⟨1, 1⟩) ⟨"t", []⟩ =
      .error (.invalidParams "No columns provided") :=
  empty_column_set_rejected.1 ⟨"t", []⟩ (by decide) rfl _

/-- Counterexample for C9 as stated: exposing the bind step as the
encoder parameter, an Insert whose encoder fails reports the failure as an
INTERNAL error (src/main.rs line 148 maps it through
`ErrorData::internal_error`), not as a caller-input error — unlike the
Select/Update/Delete handlers. -/
theorem insert_bind_failure_reported_internal :
    sqlite_insert (fun _ => .error "boom") (fun _ _ => .ok ⟨1, 1⟩)
      ⟨"t", [("a", JValue.null)]⟩ = .error (.internalError "boom") := by
  rfl

/-- C9 (amended): with the shipped encoder no value can fail to encode
(see the totality theorem); where the handlers map a hypothetical
bind-encoding failure, Select, Update and Delete report it as a
caller-input `invalid_params` error, but Insert reports it as an internal
error. -/
theorem bind_failure_error_kinds :
    ∀ (err : String) (table : String) (kvs : List (String × JValue)) (v : JValue)
      (pl : List JValue)
      (exec : String → List SqlParam → Except String ExecOutcome)
      (query : String → List SqlParam → Except String (List (List NativeColumn))),
      is_valid_ident table = true →
      (∀ kv ∈ kvs, is_valid_ident kv.1 = true) →
      kvs ≠ [] →
      sqlite_insert (fun _ => .error err) exec ⟨table, kvs⟩ =
          .error (.internalError err)
      ∧ sqlite_select (fun _ => .error err) query
            ⟨table, none, none, some (v :: pl), none, none, none⟩ =
          .error (.invalidParams err)
      ∧ sqlite_update (fun _ => .error err) exec ⟨table, kvs, none, none⟩ =
          .error (.invalidParams err)
      ∧ sqlite_delete (fun _ => .error err) exec ⟨table, none, some (v :: pl)⟩ =
          .error (.invalidParams err) := by
  intro err table kvs v pl exec query ht hcols hne
  cases kvs with
  | nil => exact absurd rfl hne
  | cons kv rest =>
      refine ⟨?_, ?_, ?_, ?_⟩
      · simp [sqlite_insert, sqlite_insertW, ht,
          collectInsert_ok _ hcols, bindLoop]
      · simp [sqlite_select, sqlite_selectW, selectColsText, ht, bindLoop]
      · simp [sqlite_update, sqlite_updateW, ht,
          collectSet_ok _ hcols, bindLoop]
      · simp [sqlite_delete, sqlite_deleteW, ht, bindLoop]

/-- Witness for C9 (amended): a concrete failing encoder on a valid Update
is reported as `invalid_params`. -/
theorem bind_failure_error_kinds_witness :
    sqlite_update (fun _ => .error "boom") (fun _ _ => .ok ⟨1, 1⟩)
      ⟨"t", [("a", JValue.null)], none, none⟩ = .error (.invalidParams "boom") :=
  (bind_failure_error_kinds "boom" "t" [("a", JValue.null)] JValue.null []
    (fun _ _ => .ok ⟨1, 1⟩) (fun _ _ => .ok []) (by decide) (by decide)
    (List.cons_ne_nil _ _)).2.2.1

lemma collectInsert_error_shape (kvs : List (String × JValue)) (e : ToolError)
    (h : collectInsert kvs = .error e) : ∃ m, e = .invalidParams m := by
  induction kvs with
  | nil => simp [collectInsert] at h
  | cons kv rest ih =>
      obtain ⟨k, v⟩ := kv
      by_cases hk : is_valid_ident k = true
      · simp only [collectInsert, hk, if_true] at h
        rcases hr : collectInsert rest with e' | p <;> rw [hr] at h
        · cases h
          exact ih hr
        · obtain ⟨cols, binds⟩ := p
          simp at h
      · simp only [collectInsert, hk, if_false, Bool.false_eq_true] at h
        cases h
        exact ⟨_, rfl⟩

/-- C10 (implicit): the write-side encoder is total — every JSON value
encodes successfully; arrays and objects are bound as their serialized
JSON text; a number on which all three numeric accessors fail is bound as
SQL NULL; and consequently every error the Insert builder can return is an
`invalid_params` error — the bind-encoding-failure branch (the only
internal-error source before execution) is unreachable. -/
theorem bind_value_total_and_fallbacks :
    (∀ v, ∃ p, bind_value v = .ok p)
  ∧ (∀ xs, bind_value (.arr xs) = .ok (.text (jsonToString (.arr xs))))
  ∧ (∀ kvs, bind_value (.obj kvs) = .ok (.text (jsonToString (.obj kvs))))
  ∧ (∀ n : JNumber, n.asI64 = none → n.asU64 = none → n.asF64 = none →
        bind_value (.num n) = .ok SqlParam.null)
  ∧ (∀ (input : InsertInput) (e : ToolError),
        sqlite_insertW bind_value input = .error e → ∃ m, e = .invalidParams m) := by
  refine ⟨bind_value_isOk, fun xs => rfl, fun kvs => rfl, ?_, ?_⟩
  · intro n h1 h2 h3
    obtain ⟨i1, u1, f1, r1⟩ := n
    simp only [JNumber.asI64] at h1
    simp only [JNumber.asU64] at h2
    simp only [JNumber.asF64] at h3
    subst h1
    subst h2
    subst h3
    rfl
  · intro input e h
    by_cases ht : is_valid_ident input.table = true
    · rw [sqlite_insertW, if_pos ht] at h
      rcases hc : collectInsert input.values with e' | p <;> rw [hc] at h
      · cases h
        exact collectInsert_error_shape _ _ hc
      · obtain ⟨cols, binds⟩ := p
        dsimp only at h
        by_cases hce : cols.isEmpty = true
        · rw [if_pos hce] at h
          cases h
          exact ⟨_, rfl⟩
        · rw [if_neg hce] at h
          obtain ⟨ps, hps⟩ := bindLoop_bind_value_total ToolError.internalError binds
          simp only [hps] at h
          simp at h
    · rw [sqlite_insertW, if_neg ht] at h
      cases h
      exact ⟨_, rfl⟩

/-- Witness for C10: a number with no successful accessor binds as NULL,
and a concrete Insert-builder error is an `invalid_params` error. -/
theorem bind_value_total_and_fallbacks_witness :
    bind_value (JValue.num ⟨none, none, none, "NaN"⟩) = .ok SqlParam.null
  ∧ ∃ m, ToolError.invalidParams "Invalid table name" = ToolError.invalidParams m := by
  constructor
  · exact bind_value_total_and_fallbacks.2.2.2.1 ⟨none, none, none, "NaN"⟩ rfl rfl rfl
  · exact bind_value_total_and_fallbacks.2.2.2.2 ⟨"1x", []⟩ _ (by decide)
